import Mathlib

/-!
Verification development for the boot-hn interactive command session engine.

The definitions below are shallow embeddings of the Python sources:
`app/commands/command_enum.py`, `app/commands/command_manager.py`,
`app/commands/models_command.py`, `app/models/user.py`, `app/models/agent.py`,
`app/services/agent.py`, `app/ui/components/progress_manager.py` and
`app/ui/welcome_screen.py`.  Python dictionaries are modelled as association
lists of `PyVal`, machine floats of the progress animation as rationals, and
database rows as records with an explicit logical clock for the
`created_at` / `updated_at` server timestamps.
-/

namespace BootHn

/-- Python runtime values that occur in the command result dictionaries and
message metadata of the program (strings, ints, bools, `None`, lists and
dicts). -/
inductive PyVal where
  | str (s : String)
  | int (n : Int)
  | bool (b : Bool)
  | pynone
  | list (xs : List PyVal)
  | dict (xs : List (String × PyVal))

/-- A Python dict with string keys, as returned by every command handler. -/
abbrev ResultDict := List (String × PyVal)

/-- Python `d.get(k)`: first binding of the key, `None` (here `none`) when
absent. -/
def resGet (r : ResultDict) (k : String) : Option PyVal :=
  (r.find? (fun p => p.1 == k)).map Prod.snd

/-- Python `s == ""` tests through the character list. -/
def pyIsEmpty (s : String) : Bool := s.data.isEmpty

/-- Python truthiness of `d.get(k)` (`None`/missing, empty string, zero,
`False`, and empty containers are falsy). -/
def pyTruthy : Option PyVal → Bool
  | none => false
  | some (.str s) => !(pyIsEmpty s)
  | some (.int n) => n != 0
  | some (.bool b) => b
  | some .pynone => false
  | some (.list xs) => !xs.isEmpty
  | some (.dict xs) => !xs.isEmpty

/-- Truthiness of a key lookup, mirroring `if result.get("success"):`. -/
def resTruthy (r : ResultDict) (k : String) : Bool :=
  pyTruthy (resGet r k)

/-- String read of a key with a default.  In the embedded flows the accessed
values are always strings, so the default also stands in for the (never
exercised) non-string case. -/
def resGetStrD (r : ResultDict) (k d : String) : String :=
  match resGet r k with
  | some (.str s) => s
  | _ => d

/-- Python `s.lower()` (the command names and replies are ASCII).  Defined on
the character list so that proofs can evaluate it. -/
def pyLower (s : String) : String := ⟨s.data.map Char.toLower⟩

/-- Python `s.strip()`: drop leading and trailing whitespace. -/
def pyStrip (s : String) : String :=
  ⟨((s.data.dropWhile Char.isWhitespace).reverse.dropWhile
      Char.isWhitespace).reverse⟩

/-- Python `s.startswith(pre)`. -/
def pyStartsWith (s pre : String) : Bool := pre.data.isPrefixOf s.data

/-- Python `s[n:]` (character slicing). -/
def pyDrop (s : String) (n : Nat) : String := ⟨s.data.drop n⟩

/-- Decimal digits to a number, `none` unless the list is nonempty and all
digits. -/
def digitsToNat? (cs : List Char) : Option Nat :=
  if cs ≠ [] ∧ cs.all Char.isDigit then
    some (cs.foldl (fun a c => a * 10 + (c.toNat - 48)) 0)
  else none

/-- Python `s.lower().strip()`, the normalisation applied to command names by
`CommandManager.execute_command` and to replies by
`_handle_commit_confirmation`. -/
def pyNorm (s : String) : String := pyStrip (pyLower s)

/-- Python `int(s)` on an already supplied string: optional sign then decimal
digits, `ValueError` (here `none`) otherwise. -/
def pyInt? (s : String) : Option Int :=
  let t := pyStrip s
  if pyStartsWith t "-" then
    (digitsToNat? (pyDrop t 1).data).map (fun n => -(n : Int))
  else if pyStartsWith t "+" then
    (digitsToNat? (pyDrop t 1).data).map (fun n => (n : Int))
  else (digitsToNat? t.data).map (fun n => (n : Int))

/-- Python `a or b` for an optional string `a` (`None` and `""` are falsy),
as in `user.selected_model if user.selected_model else default`. -/
def pyOrStr (a : Option String) (b : String) : String :=
  match a with
  | some s => if pyIsEmpty s then b else s
  | none => b

/-- Truthiness of an optional string attribute (`None` and `""` falsy). -/
def pyTruthyStr : Option String → Bool
  | none => false
  | some s => !(pyIsEmpty s)

/-- The `AgentCommand` enum of `app/commands/command_enum.py` (the only
`AgentCommand` defined in the sources). -/
inductive AgentCommandE where
  | CREATE_FILE | READ_FILE | EDIT_FILE | DELETE_FILE | LIST_FILES
  | ANALYZE_CODE | GENERATE_CODE | REFACTOR_CODE | DEBUG_CODE | FORMAT_CODE
  | CREATE_PROJECT | BUILD_PROJECT | TEST_PROJECT | DEPLOY_PROJECT
  | ASK_AI | EXPLAIN_CODE | SUGGEST_IMPROVEMENTS | GENERATE_DOCS
  | EXECUTE_COMMAND | INSTALL_PACKAGE | SEARCH_FILES
  | SHOW_HELP | SHOW_STATUS | CLEAR_CONTEXT | EXIT
deriving Repr, DecidableEq

/-- The `.value` string of each enum member. -/
def AgentCommandE.value : AgentCommandE → String
  | .CREATE_FILE => "create_file"
  | .READ_FILE => "read_file"
  | .EDIT_FILE => "edit_file"
  | .DELETE_FILE => "delete_file"
  | .LIST_FILES => "list_files"
  | .ANALYZE_CODE => "analyze_code"
  | .GENERATE_CODE => "generate_code"
  | .REFACTOR_CODE => "refactor_code"
  | .DEBUG_CODE => "debug_code"
  | .FORMAT_CODE => "format_code"
  | .CREATE_PROJECT => "create_project"
  | .BUILD_PROJECT => "build_project"
  | .TEST_PROJECT => "test_project"
  | .DEPLOY_PROJECT => "deploy_project"
  | .ASK_AI => "ask_ai"
  | .EXPLAIN_CODE => "explain_code"
  | .SUGGEST_IMPROVEMENTS => "suggest_improvements"
  | .GENERATE_DOCS => "generate_docs"
  | .EXECUTE_COMMAND => "execute_command"
  | .INSTALL_PACKAGE => "install_package"
  | .SEARCH_FILES => "search_files"
  | .SHOW_HELP => "show_help"
  | .SHOW_STATUS => "show_status"
  | .CLEAR_CONTEXT => "clear_context"
  | .EXIT => "exit"

/-- Iteration order of `for cmd in AgentCommand`, i.e. declaration order. -/
def AgentCommandE.all : List AgentCommandE :=
  [ .CREATE_FILE, .READ_FILE, .EDIT_FILE, .DELETE_FILE, .LIST_FILES,
    .ANALYZE_CODE, .GENERATE_CODE, .REFACTOR_CODE, .DEBUG_CODE, .FORMAT_CODE,
    .CREATE_PROJECT, .BUILD_PROJECT, .TEST_PROJECT, .DEPLOY_PROJECT,
    .ASK_AI, .EXPLAIN_CODE, .SUGGEST_IMPROVEMENTS, .GENERATE_DOCS,
    .EXECUTE_COMMAND, .INSTALL_PACKAGE, .SEARCH_FILES,
    .SHOW_HELP, .SHOW_STATUS, .CLEAR_CONTEXT, .EXIT ]

/-- Behaviour of one registered command instance when executed: the
dictionary it returns, or the exception it raises. -/
inductive HandlerBehavior where
  | returns (r : ResultDict)
  | raises (e : String)

/-- Contents of `CommandManager._commands`, keyed by enum member, together
with the execution behaviour of the registered command class.
`_register_commands` in the source assigns to attributes
(`AgentCommand.SETUP`, ...) that are not members of the `AgentCommand` enum
of `command_enum.py`, so under the sources as given no member of that enum
is ever registered; the theorems therefore quantify over the registry. -/
abbrev Registry := AgentCommandE → Option HandlerBehavior

/-- Name resolution of `execute_command`: the first enum member whose
`.value` equals the lowercased, stripped name. -/
def resolveCommand (name : String) : Option AgentCommandE :=
  AgentCommandE.all.find? (fun c => c.value == pyNorm name)

/-- Result for an unknown command name. -/
def unknownCommandResult (name : String) : ResultDict :=
  [ ("success", .bool false),
    ("message", .str ("Unknown command: " ++ name)),
    ("data", .dict [("available_commands",
        .list (AgentCommandE.all.map (fun c => .str c.value)))]) ]

/-- Result for a known but unregistered command name. -/
def notImplementedResult (name : String) : ResultDict :=
  [ ("success", .bool false),
    ("message", .str ("Command \x27" ++ name ++ "\x27 is not implemented yet")),
    ("data", .dict []) ]

/-- Body of the `try` block of `CommandManager.execute_command`: resolve the
name, check registration, acquire the database session, run the handler.
`.error` means a Python exception escaping the block.  `dbAcquire` stands for
`next(get_db())` (`_ensure_db_initialized` swallows its own exceptions and
cannot raise). -/
def executeCommandBody (commands : Registry) (dbAcquire : Except String Unit)
    (name : String) : Except String ResultDict :=
  match resolveCommand name with
  | none => .ok (unknownCommandResult name)
  | some c =>
    match commands c with
    | none => .ok (notImplementedResult name)
    | some hb =>
      match dbAcquire with
      | .error e => .error e
      | .ok _ =>
        match hb with
        | .returns r => .ok r
        | .raises e => .error e

/-- Dictionary produced by the `except Exception` clause. -/
def executionErrorResult (e : String) : ResultDict :=
  [ ("success", .bool false),
    ("message", .str ("Error executing command: " ++ e)),
    ("data", .dict []) ]

/-- `CommandManager.execute_command`: the `try` body with every escaping
exception converted to an error dictionary.  The codomain keeps the `Except`
layer so that "the call raises towards the caller" is representable (as
`.error`) and refutable. -/
def executeCommand (commands : Registry) (dbAcquire : Except String Unit)
    (name : String) : Except String ResultDict :=
  match executeCommandBody commands dbAcquire name with
  | .ok r => .ok r
  | .error e => .ok (executionErrorResult e)

/-- `CommandManager.is_command_available`. -/
def isCommandAvailable (commands : Registry) (name : String) : Bool :=
  match resolveCommand name with
  | some c => (commands c).isSome
  | none => false

/-- The `users` row fields touched by the models command
(`app/models/user.py`). -/
structure UserRec where
  geminiApiKey : Option String
  selectedModel : Option String
  isConfigured : Bool
deriving Repr, DecidableEq

/-- `User.get_available_models`. -/
def userGetAvailableModels : List String :=
  ["gemini-2.0-flash-exp", "gemini-1.5-pro", "gemini-1.5-flash", "gemini-pro"]

/-- `CommandResult(success, message, data).to_dict()`. -/
def commandResultToDict (success : Bool) (message : String) (data : ResultDict) :
    ResultDict :=
  [("success", .bool success), ("message", .str message), ("data", .dict data)]

/-- `User.update_configuration`: set the key, model and configured flag, then
commit; a failing commit rolls the row back and reports `False`. -/
def updateConfiguration (user : UserRec) (apiKey model : String)
    (commitOk : Bool) : Bool × UserRec :=
  if commitOk then
    (true, { user with geminiApiKey := some apiKey,
                       selectedModel := some model, isConfigured := true })
  else
    (false, user)

/-- Python `None`-aware string value, for dictionary entries such as
`previous_model`. -/
def optStrVal : Option String → PyVal
  | some s => .str s
  | none => .pynone

/-- The continuation dictionary of the models command (prompt kind `model`). -/
def modelsPromptResult (currentModel msg : String) : ResultDict :=
  [("prompt", .str "model"), ("message", .str msg),
   ("available_models", .list (userGetAvailableModels.map PyVal.str)),
   ("current_model", .str currentModel)]

/-- `ModelsCommand.execute` (`app/commands/models_command.py`).
`settingsApiKey` is `settings.gemini_api_key`, `user` the default user row,
`modelKw` the `model` kwarg, `commitOk` whether `db.commit()` succeeds inside
`update_configuration`.  Returns the result dictionary and the user row after
the call.  Note that the success payload reads `user.selected_model` after
the row was already mutated, so `previous_model` carries the new model. -/
def modelsExecute (settingsApiKey : Option String) (user : UserRec)
    (modelKw : Option String) (commitOk : Bool) : ResultDict × UserRec :=
  if !pyTruthyStr settingsApiKey
      || settingsApiKey == some "your_gemini_api_key_here" then
    (commandResultToDict false
      ("Please set GEMINI_API_KEY in your .env file\n" ++
       "Get one from: https://makersuite.google.com/app/apikey") [], user)
  else if !pyTruthyStr modelKw then
    let currentModel := pyOrStr user.selectedModel "gemini-2.0-flash-exp"
    (modelsPromptResult currentModel
      ("Current model: " ++ currentModel ++ "\n\nAvailable models:"), user)
  else
    let newModel := modelKw.getD ""
    if newModel ∉ userGetAvailableModels then
      (modelsPromptResult (pyOrStr user.selectedModel "gemini-2.0-flash-exp")
        ("Model \x27" ++ newModel ++ "\x27 is not valid. Choose from the list:"),
       user)
    else
      match updateConfiguration user (settingsApiKey.getD "") newModel commitOk with
      | (true, user2) =>
        (commandResultToDict true ("✅ Model changed to: " ++ newModel)
          [("model", .str newModel),
           ("previous_model", optStrVal user2.selectedModel)], user2)
      | (false, user2) =>
        (commandResultToDict false "Failed to update model" [], user2)

/-- State of the progress bar animation loop shared by
`ProgressManager.animate` and `WelcomeApp._animate_progress`: the elapsed
time and the progress value most recently written to the bar.  Floats are
modelled as rationals; the step is the literal `0.5` of the source. -/
structure AnimState where
  elapsed : ℚ
  displayed : ℚ
deriving Repr, DecidableEq

/-- One scheduling turn of the animation coroutine: while `elapsed <
duration` the loop writes `min(95, (elapsed / duration) * 100)` and sleeps
for half a second; once the loop condition fails the coroutine writes `100`
and finishes. -/
def animateStep (duration : ℚ) (st : AnimState) : AnimState :=
  if st.elapsed < duration then
    { elapsed := st.elapsed + 1/2,
      displayed := min 95 (st.elapsed / duration * 100) }
  else
    { st with displayed := 100 }

/-- Animation state before the first loop iteration (the bar was reset with
`advance(0)`). -/
def animateInit : AnimState := { elapsed := 0, displayed := 0 }

/-- The animation after `n` scheduling turns, absent cancellation. -/
def animateRun (duration : ℚ) : ℕ → AnimState
  | 0 => animateInit
  | n + 1 => animateStep duration (animateRun duration n)

/-- The `agent_sessions` row (`app/models/agent.py`). -/
structure AgentSessionR where
  id : Nat
  userId : Nat
  title : Option String
  modelUsed : String
  isActive : Bool
  createdAt : Nat
  updatedAt : Option Nat
deriving Repr, DecidableEq

/-- The `agent_messages` row.  `metadata` models the JSON blob by the dict
that was dumped into it. -/
structure AgentMessageR where
  id : Nat
  sessionId : Nat
  role : String
  content : String
  metadata : Option (List (String × PyVal))
  createdAt : Nat

/-- Database state relevant to the session agent.  `now` is the logical
clock behind the server-side `func.now()` timestamps; it advances on every
commit. -/
structure Db where
  sessions : List AgentSessionR
  messages : List AgentMessageR
  nextSessionId : Nat
  nextMessageId : Nat
  now : Nat

/-- `AgentSession.create_session`. -/
def createSession (db : Db) (userId : Nat) (model : String)
    (title : Option String) : Db × AgentSessionR :=
  let s : AgentSessionR :=
    { id := db.nextSessionId, userId := userId, title := title,
      modelUsed := model, isActive := true, createdAt := db.now,
      updatedAt := none }
  ({ db with sessions := db.sessions ++ [s],
             nextSessionId := db.nextSessionId + 1, now := db.now + 1 }, s)

/-- `AgentSession.add_message`: insert and commit the message row, then set
the session `updated_at` marker and commit again. -/
def addMessage (db : Db) (sess : AgentSessionR) (role content : String)
    (metadata : Option (List (String × PyVal))) :
    Db × AgentSessionR × AgentMessageR :=
  let msg : AgentMessageR :=
    { id := db.nextMessageId, sessionId := sess.id, role := role,
      content := content, metadata := metadata, createdAt := db.now }
  let sess2 := { sess with updatedAt := some (db.now + 1) }
  let db2 : Db :=
    { db with
      messages := db.messages ++ [msg],
      sessions := db.sessions.map (fun s => if s.id = sess.id then sess2 else s),
      nextMessageId := db.nextMessageId + 1,
      now := db.now + 2 }
  (db2, sess2, msg)

/-- The `session.messages` ORM relationship: the messages of one session, in
insertion order. -/
def messagesOf (db : Db) (sid : Nat) : List AgentMessageR :=
  db.messages.filter (fun m => m.sessionId == sid)

/-- Comparison key of `sorted(self.messages, key=lambda x: x.created_at)`. -/
def msgLE (a b : AgentMessageR) : Prop := a.createdAt ≤ b.createdAt

instance : DecidableRel msgLE := fun a b => Nat.decLe a.createdAt b.createdAt

instance : IsTotal AgentMessageR msgLE :=
  ⟨fun a b => Nat.le_total a.createdAt b.createdAt⟩

instance : IsTrans AgentMessageR msgLE := ⟨fun _ _ _ => Nat.le_trans⟩

/-- Python `sorted` by `created_at`; `sorted` is stable, modelled by stable
insertion sort. -/
def sortMessages (msgs : List AgentMessageR) : List AgentMessageR :=
  List.insertionSort msgLE msgs

/-- One entry of the conversation history handed to the AI client. -/
structure HistEntry where
  role : String
  content : String
deriving Repr, DecidableEq

/-- `AgentSession.get_conversation_history`. -/
def getConversationHistory (msgs : List AgentMessageR) : List HistEntry :=
  (sortMessages msgs).map (fun m => { role := m.role, content := m.content })

/-- Outcome of one call to the AI client facade
(`AIService.send_message` / `send_system_message` return either a success
dictionary with response, model and usage, or a failure dictionary carrying
the error text). -/
inductive AIResp where
  | ok (response model : String) (usage : List (String × PyVal))
  | err (error : String)

/-- The session agent state: its database handle and the current-session
pointer. -/
structure AgentSt where
  db : Db
  currentSession : Option AgentSessionR

/-- `User.get_or_create_default_user(...).id`: the single default user. -/
def defaultUserId : Nat := 1

/-- `Agent.start_new_session`. -/
def startNewSession (st : AgentSt) (curModel : String) (title : Option String) :
    AgentSt × AgentSessionR :=
  let p := createSession st.db defaultUserId curModel title
  ({ db := p.1, currentSession := some p.2 }, p.2)

/-- The conversation history that `Agent.send_message` replays into the AI
call: the current session's messages in creation order, `[]` without a
session. -/
def sendHistory (st : AgentSt) : List HistEntry :=
  match st.currentSession with
  | some s => getConversationHistory (messagesOf st.db s.id)
  | none => []

/-- `session_id` field of the agent result dictionaries. -/
def sessionIdVal : Option AgentSessionR → PyVal
  | some s => .int s.id
  | none => .pynone

/-- The session-creation pre-step shared by both send operations: create and
bind a new session when saving is requested and none is current. -/
def ensureSession (st : AgentSt) (curModel : String) (title : Option String)
    (saveToDb : Bool) : AgentSt :=
  if saveToDb && st.currentSession.isNone then
    (startNewSession st curModel title).1
  else st

/-- `Agent.send_message` (`app/services/agent.py`).  `ai` is the AI client
facade receiving the user text and the replayed history; `curModel` is
`ai_service.get_current_model()` used when a session must be created. -/
def sendMessage (ai : String → List HistEntry → AIResp) (curModel : String)
    (st : AgentSt) (message : String) (saveToDb : Bool) :
    AgentSt × ResultDict :=
  let st1 := ensureSession st curModel none saveToDb
  match ai message (sendHistory st1) with
  | .err e =>
    (st1, [("success", .bool false), ("error", .str e),
           ("session_id", sessionIdVal st1.currentSession)])
  | .ok response model usage =>
    match st1.currentSession, saveToDb with
    | some sess, true =>
      let q1 := addMessage st1.db sess "user" message none
      let q2 := addMessage q1.1 q1.2.1 "assistant" response
        (some [("model", .str model), ("usage", .dict usage)])
      ({ db := q2.1, currentSession := some q2.2.1 },
       [("success", .bool true), ("response", .str response),
        ("model", .str model), ("usage", .dict usage),
        ("session_id", .int sess.id), ("message_id", .int q2.2.2.id)])
    | _, _ =>
      (st1, [("success", .bool true), ("response", .str response),
             ("model", .str model), ("usage", .dict usage),
             ("session_id", sessionIdVal st1.currentSession),
             ("message_id", .pynone)])

/-- `Agent.send_system_message`: same persistence shape, but the user turn is
the combined `System: ... User: ...` text and no history is replayed. -/
def sendSystemMessage (ai : String → String → AIResp) (curModel : String)
    (st : AgentSt) (systemPrompt userMessage : String) (saveToDb : Bool) :
    AgentSt × ResultDict :=
  let st1 := ensureSession st curModel (some "System Chat") saveToDb
  match ai systemPrompt userMessage with
  | .err e =>
    (st1, [("success", .bool false), ("error", .str e),
           ("session_id", sessionIdVal st1.currentSession)])
  | .ok response model usage =>
    match st1.currentSession, saveToDb with
    | some sess, true =>
      let combined := "System: " ++ systemPrompt ++ "\n\nUser: " ++ userMessage
      let q1 := addMessage st1.db sess "user" combined
        (some [("type", .str "system_message"),
               ("system_prompt", .str systemPrompt)])
      let q2 := addMessage q1.1 q1.2.1 "assistant" response
        (some [("model", .str model), ("usage", .dict usage),
               ("type", .str "system_response")])
      ({ db := q2.1, currentSession := some q2.2.1 },
       [("success", .bool true), ("response", .str response),
        ("model", .str model), ("usage", .dict usage),
        ("session_id", .int sess.id), ("message_id", .int q2.2.2.id)])
    | _, _ =>
      (st1, [("success", .bool true), ("response", .str response),
             ("model", .str model), ("usage", .dict usage),
             ("session_id", sessionIdVal st1.currentSession),
             ("message_id", .pynone)])

/-- `AgentMessage.to_dict` (`get_metadata` yields `{}` for a `NULL` blob). -/
def messageToDict (m : AgentMessageR) : ResultDict :=
  [("id", .int m.id), ("role", .str m.role), ("content", .str m.content),
   ("metadata", .dict (m.metadata.getD [])),
   ("created_at", .int m.createdAt)]

/-- `Agent.get_session_messages`: a truthy `session_id` selects that session,
otherwise the current one; the session's messages are returned sorted by
`created_at`. -/
def getSessionMessages (st : AgentSt) (sessionId : Option Nat) :
    List ResultDict :=
  let sess : Option AgentSessionR :=
    match sessionId with
    | some sid =>
      if sid == 0 then st.currentSession
      else st.db.sessions.find? (fun s => s.id == sid)
    | none => st.currentSession
  match sess with
  | none => []
  | some s => (sortMessages (messagesOf st.db s.id)).map messageToDict

/-- Infix test on character lists, for Python `"..." in s`. -/
def listIsInfix (needle hay : List Char) : Bool :=
  match hay with
  | [] => needle.isEmpty
  | _ :: t => needle.isPrefixOf hay || listIsInfix needle t

/-- Python `needle in hay` on strings. -/
def strContains (hay needle : String) : Bool :=
  listIsInfix needle.toList hay.toList

/-- Python `str(...)` as used inside the f-strings of the UI (only strings
and ints are interpolated in the embedded flows). -/
def pyStrOf : PyVal → String
  | .str s => s
  | .int n => toString n
  | .bool b => if b then "True" else "False"
  | .pynone => "None"
  | .list _ => "[...]"
  | .dict _ => "\x7b...\x7d"

/-- Rendering of `result.get(k, d)` inside an f-string. -/
def resShow (r : ResultDict) (k d : String) : String :=
  match resGet r k with
  | some v => pyStrOf v
  | none => d

/-- Python `result.get("prompt") == p`. -/
def promptIs (r : ResultDict) (p : String) : Bool :=
  match resGet r "prompt" with
  | some (.str s) => s == p
  | _ => false

/-- A list-of-strings value of `result.get(k, [])` (the embedded flows only
store string lists under these keys). -/
def resStrListD (r : ResultDict) (k : String) : List String :=
  match resGet r k with
  | some (.list xs) => xs.map pyStrOf
  | _ => []

/-- A list-of-dicts value of `result.get(k, [])`. -/
def resDictListD (r : ResultDict) (k : String) : List ResultDict :=
  match resGet r k with
  | some (.list xs) => xs.map (fun v => match v with | .dict d => d | _ => [])
  | _ => []

/-- `result.get("data", {}).get("options", [])` of the explain command. -/
def resDataOptions (r : ResultDict) : List ResultDict :=
  match resGet r "data" with
  | some (.dict d) => resDictListD d "options"
  | _ => []

/-- The mutable UI fields of `WelcomeApp.__init__` that drive the input
dispatch (`app/ui/welcome_screen.py`). -/
structure AppState where
  setupStep : Option String
  models : List String
  currentCommand : Option String
  initWaitingForPath : Bool
  cleanWaitingForAction : Bool
  pendingCleanAction : Option String
  commitWaitingForConfirmation : Bool
  pendingCommitMessage : Option String
  reviewWaitingForConfirmation : Bool
  pendingReviewData : Option ResultDict
  explainWaitingForInput : Bool
  explainInputType : Option String

/-- The state right after `WelcomeApp.__init__`. -/
def initialAppState : AppState :=
  { setupStep := none, models := [], currentCommand := none,
    initWaitingForPath := false, cleanWaitingForAction := false,
    pendingCleanAction := none, commitWaitingForConfirmation := false,
    pendingCommitMessage := none, reviewWaitingForConfirmation := false,
    pendingReviewData := none, explainWaitingForInput := false,
    explainInputType := none }

/-- One call to `command_manager.execute_command(name, **kwargs)` issued by
the UI (kwargs are the string keyword arguments the UI passes). -/
structure ExecCall where
  name : String
  kwargs : List (String × String)
deriving Repr, DecidableEq

/-- Keyword argument lookup. -/
def kwLookup (c : ExecCall) (k : String) : Option String :=
  (c.kwargs.find? (fun p => p.1 == k)).map Prod.snd

/-- The command-execution collaborator as seen from the UI: each issued call
yields a result dictionary. -/
abbrev Exec := ExecCall → ResultDict

/-- Outcome of processing one submitted input line: the UI state afterwards,
the lines written to the output log, and the `execute_command` calls that
were issued (paired with their results), in order. -/
structure StepResult where
  state : AppState
  writes : List String
  calls : List (ExecCall × ResultDict)

/-- `WelcomeApp._reset_state`.  Note that the two explain fields are not
reset by the source. -/
def resetState (st : AppState) : AppState :=
  { st with
    setupStep := none, models := [], currentCommand := none,
    initWaitingForPath := false, cleanWaitingForAction := false,
    pendingCleanAction := none, commitWaitingForConfirmation := false,
    pendingCommitMessage := none, reviewWaitingForConfirmation := false,
    pendingReviewData := none }

/-- Success/failure rendering shared by many handlers:
`[green]{message}[/green]` or `[red]{message}[/red]`. -/
def renderOutcome (r : ResultDict) : String :=
  if resTruthy r "success" then "[green]" ++ resGetStrD r "message" "" ++ "[/green]"
  else "[red]" ++ resGetStrD r "message" "" ++ "[/red]"

/-- Numbered listing `  {i}. {x}` with 1-based indices. -/
def numberedLines (xs : List String) : List String :=
  xs.enum.map (fun p => "  " ++ toString (p.1 + 1) ++ ". " ++ p.2)

/-- `WelcomeApp._handle_setup`. -/
def handleSetup (exec : Exec) (st : AppState) : StepResult :=
  let call : ExecCall := ⟨"setup", []⟩
  let r := exec call
  if promptIs r "model" then
    let models := resStrListD r "available_models"
    { state := { st with
                 setupStep := some "model_selection",
                 models := models, currentCommand := some "setup" },
      writes := ["[blue]Starting setup...[/blue]",
                 "\n[green]" ++ resGetStrD r "message" "" ++ "[/green]"]
        ++ numberedLines models
        ++ ["[yellow]Enter number (1-4):[/yellow]"],
      calls := [(call, r)] }
  else
    { state := st,
      writes := ["[blue]Starting setup...[/blue]", renderOutcome r],
      calls := [(call, r)] }

/-- `WelcomeApp._handle_models`. -/
def handleModels (exec : Exec) (st : AppState) : StepResult :=
  let call : ExecCall := ⟨"models", []⟩
  let r := exec call
  if promptIs r "model" then
    let models := resStrListD r "available_models"
    let currentModel := resGetStrD r "current_model" ""
    let lines := models.enum.map (fun p =>
      "  " ++ toString (p.1 + 1) ++ ". " ++ p.2 ++
        (if p.2 == currentModel then " [dim](current)[/dim]" else ""))
    { state := { st with
                 setupStep := some "model_selection",
                 models := models, currentCommand := some "models" },
      writes := ["[blue]Loading models...[/blue]",
                 "\n[green]" ++ resGetStrD r "message" "" ++ "[/green]"]
        ++ lines
        ++ ["[yellow]Enter number to change model (or press Enter to cancel):[/yellow]"],
      calls := [(call, r)] }
  else
    { state := st,
      writes := ["[blue]Loading models...[/blue]", renderOutcome r],
      calls := [(call, r)] }

/-- `WelcomeApp._handle_init`. -/
def handleInit (exec : Exec) (st : AppState) : StepResult :=
  let call : ExecCall := ⟨"init", []⟩
  let r := exec call
  if promptIs r "project_path" then
    { state := { st with initWaitingForPath := true },
      writes := ["[blue]Starting project initialization...[/blue]",
                 "\n[green]" ++ resGetStrD r "message" "" ++ "[/green]",
                 "[yellow]Enter project path (or \x27.\x27 for current directory):[/yellow]"],
      calls := [(call, r)] }
  else
    { state := st,
      writes := ["[blue]Starting project initialization...[/blue]", renderOutcome r],
      calls := [(call, r)] }

/-- `WelcomeApp._handle_clean`. -/
def handleClean (exec : Exec) (st : AppState) : StepResult :=
  let call : ExecCall := ⟨"clean", []⟩
  let r := exec call
  if promptIs r "action" then
    let actions := resDictListD r "actions"
    let lines := actions.enum.map (fun p =>
      "  " ++ toString (p.1 + 1) ++ ". [bold]" ++ resGetStrD p.2 "key" "" ++
        "[/bold] - " ++ resGetStrD p.2 "desc" "")
    { state := { st with cleanWaitingForAction := true },
      writes := ["[blue]🧹 Database maintenance options...[/blue]",
                 "\n[green]" ++ resGetStrD r "message" "" ++ "[/green]"]
        ++ lines
        ++ ["[yellow]Enter action number or name (clean/stats/vacuum):[/yellow]"],
      calls := [(call, r)] }
  else
    { state := st,
      writes := ["[blue]🧹 Database maintenance options...[/blue]", renderOutcome r],
      calls := [(call, r)] }

/-- `WelcomeApp._handle_commit` (the progress-bar widget updates have no
output-log writes). -/
def handleCommit (exec : Exec) (st : AppState) : StepResult :=
  let intro := ["[blue]📝 Analyzing git repository and generating commit message...[/blue]",
    "[yellow]⏳ Don\x27t worry, it\x27s not broken! We\x27re calling the AI - this can take 30-60 seconds...[/yellow]"]
  let call : ExecCall := ⟨"commit", []⟩
  let r := exec call
  if promptIs r "commit_confirm" then
    let commitMessage := resGetStrD r "commit_message" ""
    { state := { st with
                 commitWaitingForConfirmation := true,
                 pendingCommitMessage := some commitMessage },
      writes := intro ++
        ["\n" ++ resGetStrD r "staged_files" "",
         "\n[green]" ++ resGetStrD r "message" "" ++ "[/green]",
         "[yellow]\"" ++ commitMessage ++ "\"[/yellow]",
         "[dim]Generated by: " ++ resShow r "ai_model" "Unknown" ++
           " (Session: " ++ resShow r "session_id" "Unknown" ++ ")[/dim]",
         "\n[yellow]Execute this commit? (yes/no/edit):[/yellow]",
         "[dim]• yes - Execute the commit[/dim]",
         "[dim]• no - Cancel the commit[/dim]",
         "[dim]• edit - Modify the message[/dim]"],
      calls := [(call, r)] }
  else
    { state := st, writes := intro ++ [renderOutcome r], calls := [(call, r)] }

/-- `WelcomeApp._handle_review`. -/
def handleReview (exec : Exec) (st : AppState) : StepResult :=
  let intro := ["[blue]🔍 Running AI code review...[/blue]",
    "[yellow]⏳ Don\x27t worry, it\x27s not broken! We\x27re calling the AI - this can take 30-60 seconds...[/yellow]"]
  let call : ExecCall := ⟨"review-changes", []⟩
  let r := exec call
  if promptIs r "review_save_confirm" then
    { state := { st with
                 reviewWaitingForConfirmation := true,
                 pendingReviewData := some r },
      writes := intro ++
        ["\n" ++ resGetStrD r "git_status" "",
         "\n[green]" ++ resGetStrD r "message" "" ++ "[/green]",
         "\n" ++ resGetStrD r "review_content" "",
         "[dim]Generated by: " ++ resShow r "ai_model" "Unknown" ++
           " (Session: " ++ resShow r "session_id" "Unknown" ++ ")[/dim]",
         "\n[yellow]Save this review to database? (yes/no):[/yellow]",
         "[dim]• yes - Save review for future reference[/dim]",
         "[dim]• no - Discard review[/dim]"],
      calls := [(call, r)] }
  else
    { state := st, writes := intro ++ [renderOutcome r], calls := [(call, r)] }

/-- `WelcomeApp._handle_explain`. -/
def handleExplain (exec : Exec) (st : AppState) : StepResult :=
  let call : ExecCall := ⟨"explain", []⟩
  let r := exec call
  if promptIs r "explain_input" then
    let options := resDataOptions r
    let lines := options.enum.map (fun p =>
      "  " ++ toString (p.1 + 1) ++ ". [bold]" ++ resGetStrD p.2 "key" "" ++
        "[/bold] - " ++ resGetStrD p.2 "desc" "")
    { state := { st with
                 explainWaitingForInput := true,
                 explainInputType := some "option" },
      writes := ["[blue]🤖 Starting AI Code Explanation...[/blue]",
                 "\n[green]" ++ resGetStrD r "message" "" ++ "[/green]"]
        ++ lines
        ++ ["\n[yellow]Choose an option (1-3) or type your choice:[/yellow]",
            "[dim]• paste - Paste code to analyze[/dim]",
            "[dim]• file <path> - Analyze specific file[/dim]",
            "[dim]• current - Analyze current directory[/dim]"],
      calls := [(call, r)] }
  else
    { state := st,
      writes := ["[blue]🤖 Starting AI Code Explanation...[/blue]", renderOutcome r],
      calls := [(call, r)] }

/-- `WelcomeApp._handle_model_choice`: empty input cancels, a non-numeric
reply or an out-of-range number re-prompts, a valid number executes the
current command (`setup` by default) with the chosen model and resets the
state. -/
def handleModelChoice (exec : Exec) (st : AppState) (choice : String) :
    StepResult :=
  if pyStrip choice = "" then
    { state := resetState st,
      writes := ["[dim]Model selection cancelled.[/dim]"], calls := [] }
  else
    match pyInt? choice with
    | none =>
      { state := st,
        writes := ["[red]Please enter a number (1-4) or press Enter to cancel[/red]"],
        calls := [] }
    | some num =>
      if 1 ≤ num ∧ num ≤ (st.models.length : Int) then
        let selected := st.models.getD (num - 1).toNat ""
        let command := pyOrStr st.currentCommand "setup"
        let call : ExecCall := ⟨command, [("model", selected)]⟩
        let r := exec call
        { state := resetState st, writes := [renderOutcome r],
          calls := [(call, r)] }
      else
        { state := st,
          writes := ["[red]Invalid number. Please enter 1-4[/red]"],
          calls := [] }

/-- `WelcomeApp._handle_init_path`: runs the init command on the submitted
path (with progress animation around the call) and resets
`_init_waiting_for_path`; there is no empty-input check in this handler. -/
def handleInitPath (exec : Exec) (st : AppState) (path : String) : StepResult :=
  let intro := ["[blue]🚀 Starting AI-powered documentation generation...[/blue]",
    "[yellow]⏳ Don\x27t worry, it\x27s not broken! We\x27re calling the AI - this can take 30-60 seconds...[/yellow]"]
  let call : ExecCall := ⟨"init", [("project_path", path)]⟩
  let r := exec call
  let done := "[dim]🎉 AI processing completed![/dim]"
  let tail :=
    if resTruthy r "success" then
      ["[green]✅ " ++ resGetStrD r "message" "" ++ "[/green]"]
    else
      let errorMsg := resGetStrD r "message" "Unknown error"
      ["[red]❌ " ++ errorMsg ++ "[/red]"] ++
      (if strContains errorMsg "Details:" then
        ["[dim]💡 Troubleshooting tips:",
         "  • Set GEMINI_API_KEY in your .env file",
         "  • Run /setup to configure your model",
         "  • Check internet connection for AI service[/dim]"]
      else [])
  { state := { st with initWaitingForPath := false },
    writes := intro ++ [done] ++ tail, calls := [(call, r)] }

/-- `WelcomeApp._handle_clean_action`: empty input cancels; a pending
destructive confirmation consumes the reply; the `clean` action asks for a
`yes` confirmation; other actions execute immediately. -/
def handleCleanAction (exec : Exec) (st : AppState) (choice : String) :
    StepResult :=
  if pyStrip choice = "" then
    { state := { st with cleanWaitingForAction := false },
      writes := ["[dim]Clean operation cancelled.[/dim]"], calls := [] }
  else
    let action :=
      if choice = "1" then "clean"
      else if choice = "2" then "stats"
      else if choice = "3" then "vacuum"
      else pyLower choice
    if pyTruthyStr st.pendingCleanAction then
      if pyLower choice = "yes" then
        let call : ExecCall :=
          ⟨"clean", [("action", st.pendingCleanAction.getD "")]⟩
        let r := exec call
        { state := { st with
            pendingCleanAction := none, cleanWaitingForAction := false },
          writes := ["[blue]🧹 Cleaning database...[/blue]", renderOutcome r],
          calls := [(call, r)] }
      else
        { state := { st with
            pendingCleanAction := none, cleanWaitingForAction := false },
          writes := ["[dim]Database clean cancelled.[/dim]"], calls := [] }
    else if action = "clean" then
      { state := { st with pendingCleanAction := some action },
        writes := ["[red]⚠️  WARNING: This will permanently delete ALL data![/red]",
          "[dim]Including: user settings, API keys, conversation history[/dim]",
          "[yellow]Type \x27yes\x27 to confirm or anything else to cancel:[/yellow]"],
        calls := [] }
    else
      let call : ExecCall := ⟨"clean", [("action", action)]⟩
      let r := exec call
      { state := { st with cleanWaitingForAction := false },
        writes := [renderOutcome r], calls := [(call, r)] }

/-- `WelcomeApp._handle_commit_confirmation`: the reply is lowercased and
stripped before the yes/no/edit grammar is applied; a bare `edit` asks for a
replacement message, `edit <text>` or any other non-yes/no text while a
draft exists replaces the draft (with the lowercased text) and re-asks. -/
def handleCommitConfirmation (exec : Exec) (st : AppState) (choice0 : String) :
    StepResult :=
  let c := pyNorm choice0
  if c = "" ∨ c = "no" then
    { state := { st with
        commitWaitingForConfirmation := false, pendingCommitMessage := none },
      writes := ["[dim]Commit cancelled.[/dim]"], calls := [] }
  else if c = "yes" then
    let call : ExecCall :=
      ⟨"commit", [("action", "execute"),
                  ("commit_message", st.pendingCommitMessage.getD "")]⟩
    let r := exec call
    { state := { st with
        commitWaitingForConfirmation := false, pendingCommitMessage := none },
      writes := ["[blue]🚀 Executing commit...[/blue]", renderOutcome r],
      calls := [(call, r)] }
  else if c = "edit" then
    { state := st,
      writes := ["[yellow]Current message: \"" ++
          st.pendingCommitMessage.getD "" ++ "\"[/yellow]",
        "[yellow]Enter your modified commit message:[/yellow]"],
      calls := [] }
  else if pyStartsWith c "edit " = true ∨
      (c ≠ "yes" ∧ c ≠ "no" ∧ pyTruthyStr st.pendingCommitMessage = true) then
    let newMessage := if pyStartsWith c "edit " then pyStrip (pyDrop c 5) else c
    if newMessage ≠ "" then
      { state := { st with pendingCommitMessage := some newMessage },
        writes := ["[green]✅ Updated commit message: \"" ++ newMessage ++ "\"[/green]",
          "[yellow]Execute this commit? (yes/no/edit):[/yellow]"],
        calls := [] }
    else
      { state := st,
        writes := ["[red]Empty commit message. Please try again.[/red]"],
        calls := [] }
  else
    { state := st,
      writes := ["[red]Please enter \x27yes\x27, \x27no\x27, or \x27edit\x27[/red]"],
      calls := [] }

/-- `WelcomeApp._handle_review_confirmation`. -/
def handleReviewConfirmation (st : AppState) (choice0 : String) : StepResult :=
  let c := pyNorm choice0
  if c = "" ∨ c = "no" then
    { state := { st with
        reviewWaitingForConfirmation := false, pendingReviewData := none },
      writes := ["[dim]Review discarded (not saved to database).[/dim]"],
      calls := [] }
  else if c = "yes" then
    { state := { st with
        reviewWaitingForConfirmation := false, pendingReviewData := none },
      writes := ["[green]✅ Code review saved to database successfully![/green]",
        "[dim]Session ID: " ++
          resShow (st.pendingReviewData.getD []) "session_id" "Unknown" ++ "[/dim]"],
      calls := [] }
  else
    { state := st,
      writes := ["[red]Please enter \x27yes\x27 or \x27no\x27[/red]"], calls := [] }

/-- Intro lines shared by the explain executors. -/
def explainWaitLine : String :=
  "[yellow]⏳ Don\x27t worry, it\x27s not broken! We\x27re calling the AI - this can take 30-60 seconds...[/yellow]"

/-- Reset of the explain fields performed in the `finally` blocks of the
explain executors. -/
def resetExplain (st : AppState) : AppState :=
  { st with explainWaitingForInput := false, explainInputType := none }

/-- `WelcomeApp._execute_explain_code`. -/
def executeExplainCode (exec : Exec) (st : AppState) (code : String) :
    StepResult :=
  let call : ExecCall := ⟨"explain", [("action", "analyze_code"), ("code", code)]⟩
  let r := exec call
  let tail :=
    if resTruthy r "success" then
      ["\n[green]" ++ resGetStrD r "message" "" ++ "[/green]",
       "\n" ++ resGetStrD r "explanation_content" "",
       "\n[dim]AI Model: " ++ resShow r "ai_model" "Unknown" ++
         " | Session: " ++ resShow r "session_id" "Unknown" ++ "[/dim]"]
    else
      let errorMsg := resGetStrD r "message" "Unknown error"
      ["[red]❌ Code analysis failed: " ++ errorMsg ++ "[/red]"] ++
      (if strContains errorMsg "API key" then
        ["[dim]💡 Tip: Run /setup to configure your AI model[/dim]"] else [])
  { state := resetExplain st,
    writes := ["[blue]🤖 Analyzing your code...[/blue]", explainWaitLine] ++ tail,
    calls := [(call, r)] }

/-- `WelcomeApp._execute_explain_file`. -/
def executeExplainFile (exec : Exec) (st : AppState) (filePath : String) :
    StepResult :=
  let call : ExecCall :=
    ⟨"explain", [("action", "analyze_file"), ("file_path", filePath)]⟩
  let r := exec call
  let tail :=
    if resTruthy r "success" then
      ["\n[green]" ++ resGetStrD r "message" "" ++ "[/green]",
       "\n" ++ resGetStrD r "explanation_content" "",
       "\n[dim]File: " ++ resShow r "file_name" filePath ++
         " | Size: " ++ resShow r "file_size" "0" ++
         " chars | AI Model: " ++ resShow r "ai_model" "Unknown" ++ "[/dim]"]
    else
      let errorMsg := resGetStrD r "message" "Unknown error"
      ["[red]❌ File analysis failed: " ++ errorMsg ++ "[/red]"] ++
      (if strContains errorMsg "API key" then
        ["[dim]💡 Tip: Run /setup to configure your AI model[/dim]"]
      else if strContains (pyLower errorMsg) "not found" then
        ["[dim]💡 Tip: Use absolute or relative paths like ./file.py or /full/path/file.py[/dim]"]
      else [])
  { state := resetExplain st,
    writes := ["[blue]🤖 Analyzing file: " ++ filePath ++ "[/blue]",
      explainWaitLine] ++ tail,
    calls := [(call, r)] }

/-- `WelcomeApp._execute_explain_current`. -/
def executeExplainCurrent (exec : Exec) (st : AppState) : StepResult :=
  let call : ExecCall := ⟨"explain", [("action", "analyze_current_dir")]⟩
  let r := exec call
  let tail :=
    if resTruthy r "success" then
      ["\n[green]" ++ resGetStrD r "message" "" ++ "[/green]",
       "\n" ++ resGetStrD r "explanation_content" "",
       "\n[dim]Directory: " ++ resShow r "directory_path" "" ++
         " | AI Model: " ++ resShow r "ai_model" "Unknown" ++ "[/dim]"]
    else
      let errorMsg := resGetStrD r "message" "Unknown error"
      ["[red]❌ Directory analysis failed: " ++ errorMsg ++ "[/red]"] ++
      (if strContains errorMsg "API key" then
        ["[dim]💡 Tip: Run /setup to configure your AI model[/dim]"] else [])
  { state := resetExplain st,
    writes := ["[blue]🤖 Analyzing current directory structure...[/blue]",
      explainWaitLine] ++ tail,
    calls := [(call, r)] }

/-- `WelcomeApp._handle_explain_input`: empty input cancels; otherwise the
reply is routed by the pending input type (option selection, pasted code, or
file path). -/
def handleExplainInput (exec : Exec) (st : AppState) (text0 : String) :
    StepResult :=
  if pyStrip text0 = "" then
    { state := resetExplain st,
      writes := ["[dim]Explain operation cancelled.[/dim]"], calls := [] }
  else
    let t := pyStrip text0
    if st.explainInputType = some "option" then
      if t = "1" ∨ t = "paste" then
        { state := { st with explainInputType := some "code_paste" },
          writes := ["[blue]📝 Paste your code below and press Enter:[/blue]",
            "[dim]Tip: You can paste multi-line code. Press Enter when done.[/dim]"],
          calls := [] }
      else if t = "2" ∨ t = "file" ∨ pyStartsWith t "file " = true then
        if pyStartsWith t "file " then
          executeExplainFile exec st (pyStrip (pyDrop t 5))
        else
          { state := { st with explainInputType := some "file_path" },
            writes := ["[blue]📁 Enter the file path to analyze:[/blue]",
              "[dim]Example: ./main.py or /path/to/file.py[/dim]"],
            calls := [] }
      else if t = "3" ∨ t = "current" then
        executeExplainCurrent exec st
      else
        { state := st,
          writes := ["[red]Invalid option. Please enter 1-3, paste, file, or current[/red]"],
          calls := [] }
    else if st.explainInputType = some "code_paste" then
      executeExplainCode exec st t
    else if st.explainInputType = some "file_path" then
      executeExplainFile exec st t
    else
      { state := st, writes := [], calls := [] }

/-- The `/clear` output line of `action_clear_terminal`. -/
def clearedLine : String :=
  "🧹 Terminal cleared! Type [bold]/setup[/bold], [bold]/models[/bold], [bold]/init[/bold], [bold]/clean[/bold], [bold]/commit[/bold], [bold]/review-changes[/bold], [bold]/explain[/bold], or [bold]/clear[/bold]."

/-- The unknown-command line of `on_input_submitted`. -/
def unknownLine : String :=
  "[red]Unknown command. Use /setup, /models, /init, /clean, /commit, /review-changes, /explain, or /clear[/red]"

/-- `WelcomeApp.on_input_submitted`: strip the submitted line, echo it, then
route it — a pending continuation (checked in source order) consumes the
input as a reply, otherwise it is matched against the slash commands. -/
def onInputSubmitted (exec : Exec) (st : AppState) (raw : String) : StepResult :=
  let text := pyStrip raw
  let echo := "[yellow]> " ++ text ++ "[/yellow]"
  let res :=
    if st.setupStep = some "model_selection" then handleModelChoice exec st text
    else if st.initWaitingForPath = true then handleInitPath exec st text
    else if st.cleanWaitingForAction = true then handleCleanAction exec st text
    else if st.commitWaitingForConfirmation = true then
      handleCommitConfirmation exec st text
    else if st.reviewWaitingForConfirmation = true then
      handleReviewConfirmation st text
    else if st.explainWaitingForInput = true then handleExplainInput exec st text
    else if text = "/setup" then handleSetup exec st
    else if text = "/models" then handleModels exec st
    else if text = "/init" then handleInit exec st
    else if text = "/clean" then handleClean exec st
    else if text = "/commit" then handleCommit exec st
    else if text = "/review-changes" then handleReview exec st
    else if text = "/explain" then handleExplain exec st
    else if text = "/clear" then
      { state := st, writes := [clearedLine], calls := [] }
    else if text ≠ "" then
      { state := st, writes := [unknownLine], calls := [] }
    else
      { state := st, writes := [], calls := [] }
  { res with writes := echo :: res.writes }

/-- The faithful contents of `CommandManager._commands`: `_register_commands`
assigns to `AgentCommand.SETUP`, `AgentCommand.MODELS`, ... — attributes that
are not members of the `AgentCommand` enum of `command_enum.py` — so no
member of that enum ever receives a handler. -/
def registeredCommands : Registry := fun _ => none

/-- The value stored under `available_commands` by the unknown-command
outcome. -/
def availableCommandsVal : PyVal :=
  .list (AgentCommandE.all.map (fun c => .str c.value))

/-- C6: `execute_command` never propagates an exception: the call always
returns (`.ok`), and whenever the resolved, registered handler raises `e`
(with the database session acquired), the returned dictionary is the
`success=False` outcome carrying `Error executing command: e`. -/
theorem executeCommand_never_raises :
    ∀ (commands : Registry) (dbAcquire : Except String Unit) (name : String),
      (∃ r, executeCommand commands dbAcquire name = .ok r) ∧
      (∀ c e, resolveCommand name = some c →
        commands c = some (.raises e) → dbAcquire = .ok () →
        executeCommand commands dbAcquire name = .ok (executionErrorResult e) ∧
        resGet (executionErrorResult e) "success" = some (.bool false) ∧
        resGetStrD (executionErrorResult e) "message" "" =
          "Error executing command: " ++ e) := by
  intro commands dbAcquire name
  constructor
  · match hb : executeCommandBody commands dbAcquire name with
    | .ok r => exact ⟨r, by simp [executeCommand, hb]⟩
    | .error e => exact ⟨executionErrorResult e, by simp [executeCommand, hb]⟩
  · intro c e hres hcmd hdb
    refine ⟨?_, rfl, rfl⟩
    simp [executeCommand, executeCommandBody, hres, hcmd, hdb]

/-- Witness for C6 at a concrete registry whose only registered command
raises. -/
theorem executeCommand_never_raises_witness :
    executeCommand (fun _ => some (.raises "boom")) (.ok ()) "create_file" =
      .ok (executionErrorResult "boom") :=
  ((executeCommand_never_raises (fun _ => some (.raises "boom")) (.ok ())
      "create_file").2 .CREATE_FILE "boom" (by decide) rfl rfl).1

/-- C7 counterexample: `create_file` matches no registered command (the
source registry registers no member of the enum), yet the returned failure
carries an empty `data` payload, not the list of known command names. -/
theorem executeCommand_unregistered_counterexample :
    isCommandAvailable registeredCommands "create_file" = false ∧
    executeCommand registeredCommands (.ok ()) "create_file" =
      .ok (notImplementedResult "create_file") ∧
    resGet (notImplementedResult "create_file") "data" = some (.dict []) ∧
    (some (PyVal.dict []) : Option PyVal) ≠
      some (PyVal.dict [("available_commands", availableCommandsVal)]) := by
  refine ⟨rfl, rfl, rfl, ?_⟩
  simp [availableCommandsVal]

/-- C7 (amended): name resolution factors through `lower().strip()`; a name
matching no enum value yields the failure outcome whose payload carries the
list of all known command names; a name matching an enum value without a
registered handler yields the `not implemented` failure with an empty
payload; in every case the call returns instead of crashing. -/
theorem executeCommand_resolution_and_unknown :
    ∀ (commands : Registry) (dbAcquire : Except String Unit) (name : String),
      (∀ name2, pyNorm name = pyNorm name2 →
        resolveCommand name = resolveCommand name2) ∧
      (resolveCommand name = none →
        executeCommand commands dbAcquire name = .ok (unknownCommandResult name) ∧
        resGet (unknownCommandResult name) "data" =
          some (.dict [("available_commands", availableCommandsVal)]) ∧
        resTruthy (unknownCommandResult name) "success" = false) ∧
      (∀ c, resolveCommand name = some c → commands c = none →
        executeCommand commands dbAcquire name =
          .ok (notImplementedResult name)) ∧
      (∃ r, executeCommand commands dbAcquire name = .ok r) := by
  intro commands dbAcquire name
  refine ⟨?_, ?_, ?_, ?_⟩
  · intro name2 h
    simp [resolveCommand, h]
  · intro h
    exact ⟨by simp [executeCommand, executeCommandBody, h], rfl, rfl⟩
  · intro c hres hcmd
    simp [executeCommand, executeCommandBody, hres, hcmd]
  · match hb : executeCommandBody commands dbAcquire name with
    | .ok r => exact ⟨r, by simp [executeCommand, hb]⟩
    | .error e => exact ⟨executionErrorResult e, by simp [executeCommand, hb]⟩

/-- Witness for the amended C7: `"  SETUP "` normalises like `"setup"`,
matches no enum value, and receives the known-name list. -/
theorem executeCommand_resolution_and_unknown_witness :
    resolveCommand "  SETUP " = resolveCommand "setup" ∧
    executeCommand registeredCommands (.ok ()) "  SETUP " =
      .ok (unknownCommandResult "  SETUP ") ∧
    executeCommand registeredCommands (.ok ()) "create_file" =
      .ok (notImplementedResult "create_file") := by
  refine ⟨?_, ?_, ?_⟩
  · exact (executeCommand_resolution_and_unknown registeredCommands (.ok ())
      "  SETUP ").1 "setup" (by decide)
  · exact ((executeCommand_resolution_and_unknown registeredCommands (.ok ())
      "  SETUP ").2.1 (by decide)).1
  · exact (executeCommand_resolution_and_unknown registeredCommands (.ok ())
      "create_file").2.2.1 .CREATE_FILE (by decide) rfl

/-- C9: `add_message` leaves every field of the session other than
`updated_at` unchanged — id, owning-user id, title, model name and the
active flag are untouched — while the message is appended to the log. -/
theorem addMessage_session_frame :
    ∀ (db : Db) (sess : AgentSessionR) (role content : String)
      (metadata : Option (List (String × PyVal))),
      ((addMessage db sess role content metadata).2.1.id = sess.id) ∧
      ((addMessage db sess role content metadata).2.1.userId = sess.userId) ∧
      ((addMessage db sess role content metadata).2.1.title = sess.title) ∧
      ((addMessage db sess role content metadata).2.1.modelUsed =
        sess.modelUsed) ∧
      ((addMessage db sess role content metadata).2.1.isActive =
        sess.isActive) ∧
      ((addMessage db sess role content metadata).2.1.updatedAt =
        some (db.now + 1)) ∧
      ((addMessage db sess role content metadata).1.messages =
        db.messages ++ [(addMessage db sess role content metadata).2.2]) := by
  intro db sess role content metadata
  exact ⟨rfl, rfl, rfl, rfl, rfl, rfl, rfl⟩

/-- C3 counterexample: with expected duration `0.5` and two uncancelled
scheduling turns the animation loop itself has already written `100`, even
though the wrapped work has not completed (no cancellation occurred). -/
theorem animate_reaches_100_before_completion :
    (animateRun (1/2 : ℚ) 2).displayed = 100 ∧
    ¬((animateRun (1/2 : ℚ) 2).displayed ≤ 95) := by
  constructor
  · norm_num [animateRun, animateStep, animateInit]
  · norm_num [animateRun, animateStep, animateInit]

/-- C3 (amended): as long as the animation loop is still inside its expected
duration (`elapsed < duration`), the displayed progress value never exceeds
95; once the elapsed time reaches the expected duration, the loop itself
snaps the bar to 100 even if the work has not completed (and completion of
the work cancels the loop, the wrapper then writing 100). -/
theorem animate_displayed_le_95_before_duration :
    ∀ (duration : ℚ) (n : ℕ),
      (animateRun duration n).elapsed < duration →
      (animateRun duration n).displayed ≤ 95 := by
  intro duration n
  cases n with
  | zero =>
    intro _
    norm_num [animateRun, animateInit]
  | succ n =>
    intro h
    show (animateStep duration (animateRun duration n)).displayed ≤ 95
    unfold animateStep
    by_cases hc : (animateRun duration n).elapsed < duration
    · simp only [if_pos hc]
      exact min_le_left _ _
    · exfalso
      apply hc
      have he : (animateRun duration (n + 1)).elapsed =
          (animateRun duration n).elapsed := by
        show (animateStep duration (animateRun duration n)).elapsed = _
        unfold animateStep
        simp only [if_neg hc]
      rw [he] at h
      exact h

/-- Witness for the amended C3: after one turn of a 45-second animation the
loop is still inside its duration and displays at most 95. -/
theorem animate_displayed_le_95_witness :
    (animateRun (45 : ℚ) 1).elapsed < 45 ∧
    (animateRun (45 : ℚ) 1).displayed ≤ 95 :=
  ⟨by norm_num [animateRun, animateStep, animateInit],
   animate_displayed_le_95_before_duration 45 1
     (by norm_num [animateRun, animateStep, animateInit])⟩

/-- C10: a missing, empty or placeholder `GEMINI_API_KEY` makes the models
command return the failure telling the user to set `GEMINI_API_KEY`, without
emitting the model-choice prompt and without touching the stored user
configuration. -/
theorem models_requires_api_key :
    ∀ (settingsApiKey : Option String) (user : UserRec)
      (modelKw : Option String) (commitOk : Bool),
      (settingsApiKey = none ∨ settingsApiKey = some "" ∨
        settingsApiKey = some "your_gemini_api_key_here") →
      (modelsExecute settingsApiKey user modelKw commitOk).1 =
        commandResultToDict false
          ("Please set GEMINI_API_KEY in your .env file\n" ++
           "Get one from: https://makersuite.google.com/app/apikey") [] ∧
      (modelsExecute settingsApiKey user modelKw commitOk).2 = user ∧
      resGet (modelsExecute settingsApiKey user modelKw commitOk).1 "prompt" =
        none ∧
      resTruthy (modelsExecute settingsApiKey user modelKw commitOk).1
        "success" = false ∧
      strContains
        (resGetStrD (modelsExecute settingsApiKey user modelKw commitOk).1
          "message" "") "GEMINI_API_KEY" = true := by
  intro k user mk ok h
  rcases h with h | h | h <;> subst h <;> exact ⟨rfl, rfl, rfl, rfl, rfl⟩

/-- Witness for C10 at the absent key and a blank user row. -/
theorem models_requires_api_key_witness :
    (modelsExecute none ⟨none, none, false⟩ none true).1 =
      commandResultToDict false
        ("Please set GEMINI_API_KEY in your .env file\n" ++
         "Get one from: https://makersuite.google.com/app/apikey") [] ∧
    (modelsExecute none ⟨none, none, false⟩ none true).2 =
      ⟨none, none, false⟩ ∧
    resGet (modelsExecute none ⟨none, none, false⟩ none true).1 "prompt" =
      none :=
  ⟨(models_requires_api_key none ⟨none, none, false⟩ none true (Or.inl rfl)).1,
   (models_requires_api_key none ⟨none, none, false⟩ none true
     (Or.inl rfl)).2.1,
   (models_requires_api_key none ⟨none, none, false⟩ none true
     (Or.inl rfl)).2.2.1⟩

/-- Session creation never touches the message table. -/
theorem ensureSession_messages (st : AgentSt) (curModel : String)
    (title : Option String) (saveToDb : Bool) :
    (ensureSession st curModel title saveToDb).db.messages = st.db.messages := by
  unfold ensureSession
  split <;> rfl

/-- C2: for both send operations of the session agent, an AI-call failure
appends no message and surfaces the error in a failure result, while a
success with saving requested appends exactly one `user` message followed by
exactly one `assistant` message (in that order, with increasing creation
times) for the current session, after the call. -/
theorem send_message_atomic :
    ∀ (ai : String → List HistEntry → AIResp) (sysAi : String → String → AIResp)
      (curModel : String) (st : AgentSt)
      (message systemPrompt userMessage : String) (saveToDb : Bool),
      (∀ e, ai message (sendHistory (ensureSession st curModel none saveToDb)) =
          .err e →
        (sendMessage ai curModel st message saveToDb).1.db.messages =
          st.db.messages ∧
        resGet (sendMessage ai curModel st message saveToDb).2 "success" =
          some (.bool false) ∧
        resGet (sendMessage ai curModel st message saveToDb).2 "error" =
          some (.str e)) ∧
      (∀ response model usage sess,
        ai message (sendHistory (ensureSession st curModel none saveToDb)) =
          .ok response model usage →
        (ensureSession st curModel none saveToDb).currentSession = some sess →
        saveToDb = true →
        ∃ u a, (sendMessage ai curModel st message saveToDb).1.db.messages =
            st.db.messages ++ [u, a] ∧
          u.role = "user" ∧ u.content = message ∧ u.sessionId = sess.id ∧
          a.role = "assistant" ∧ a.content = response ∧ a.sessionId = sess.id ∧
          u.createdAt < a.createdAt ∧
          resGet (sendMessage ai curModel st message saveToDb).2 "success" =
            some (.bool true)) ∧
      (∀ e, sysAi systemPrompt userMessage = .err e →
        (sendSystemMessage sysAi curModel st systemPrompt userMessage
            saveToDb).1.db.messages = st.db.messages ∧
        resGet (sendSystemMessage sysAi curModel st systemPrompt userMessage
            saveToDb).2 "success" = some (.bool false) ∧
        resGet (sendSystemMessage sysAi curModel st systemPrompt userMessage
            saveToDb).2 "error" = some (.str e)) ∧
      (∀ response model usage sess,
        sysAi systemPrompt userMessage = .ok response model usage →
        (ensureSession st curModel (some "System Chat")
            saveToDb).currentSession = some sess →
        saveToDb = true →
        ∃ u a, (sendSystemMessage sysAi curModel st systemPrompt userMessage
              saveToDb).1.db.messages = st.db.messages ++ [u, a] ∧
          u.role = "user" ∧
          u.content = "System: " ++ systemPrompt ++ "\n\nUser: " ++ userMessage ∧
          u.sessionId = sess.id ∧
          a.role = "assistant" ∧ a.content = response ∧ a.sessionId = sess.id ∧
          u.createdAt < a.createdAt ∧
          resGet (sendSystemMessage sysAi curModel st systemPrompt userMessage
              saveToDb).2 "success" = some (.bool true)) := by
  intro ai sysAi curModel st message systemPrompt userMessage saveToDb
  refine ⟨?_, ?_, ?_, ?_⟩
  · intro e hai
    refine ⟨?_, ?_, ?_⟩ <;>
      simp only [sendMessage, hai, ensureSession_messages] <;> rfl
  · intro response model usage sess hai hsess hsave
    subst hsave
    refine ⟨(addMessage (ensureSession st curModel none true).db sess "user"
        message none).2.2,
      (addMessage
        (addMessage (ensureSession st curModel none true).db sess "user"
          message none).1
        (addMessage (ensureSession st curModel none true).db sess "user"
          message none).2.1
        "assistant" response
        (some [("model", .str model), ("usage", .dict usage)])).2.2,
      ?_, rfl, rfl, rfl, rfl, rfl, rfl, ?_, ?_⟩
    · simp only [sendMessage, hai, hsess]
      simp [addMessage, ensureSession_messages]
    · simp [addMessage]
    · simp only [sendMessage, hai, hsess]
      rfl
  · intro e hai
    refine ⟨?_, ?_, ?_⟩ <;>
      simp only [sendSystemMessage, hai, ensureSession_messages] <;> rfl
  · intro response model usage sess hai hsess hsave
    subst hsave
    refine ⟨(addMessage (ensureSession st curModel (some "System Chat") true).db
        sess "user" ("System: " ++ systemPrompt ++ "\n\nUser: " ++ userMessage)
        (some [("type", .str "system_message"),
               ("system_prompt", .str systemPrompt)])).2.2,
      (addMessage
        (addMessage (ensureSession st curModel (some "System Chat") true).db
          sess "user" ("System: " ++ systemPrompt ++ "\n\nUser: " ++ userMessage)
          (some [("type", .str "system_message"),
                 ("system_prompt", .str systemPrompt)])).1
        (addMessage (ensureSession st curModel (some "System Chat") true).db
          sess "user" ("System: " ++ systemPrompt ++ "\n\nUser: " ++ userMessage)
          (some [("type", .str "system_message"),
                 ("system_prompt", .str systemPrompt)])).2.1
        "assistant" response
        (some [("model", .str model), ("usage", .dict usage),
               ("type", .str "system_response")])).2.2,
      ?_, rfl, rfl, rfl, rfl, rfl, rfl, ?_, ?_⟩
    · simp only [sendSystemMessage, hai, hsess]
      simp [addMessage, ensureSession_messages]
    · simp [addMessage]
    · simp only [sendSystemMessage, hai, hsess]
      rfl

/-- An empty database, as after `create_tables` on a fresh file. -/
def emptyDb : Db :=
  { sessions := [], messages := [], nextSessionId := 1, nextMessageId := 1,
    now := 0 }

/-- A sample persisted session. -/
def sampleSession : AgentSessionR :=
  { id := 1, userId := 1, title := none, modelUsed := "gemini-pro",
    isActive := true, createdAt := 0, updatedAt := none }

/-- An agent bound to `sampleSession` with an empty message log. -/
def sampleAgentSt : AgentSt :=
  { db := { emptyDb with
            sessions := [sampleSession], nextSessionId := 2, now := 1 },
    currentSession := some sampleSession }

/-- Witness for C2: a failing AI call appends nothing; a succeeding one
appends the user/assistant pair. -/
theorem send_message_atomic_witness :
    ((sendMessage (fun _ _ => .err "network down") "gemini-pro" sampleAgentSt
        "hi" true).1.db.messages = sampleAgentSt.db.messages ∧
      resGet (sendMessage (fun _ _ => .err "network down") "gemini-pro"
        sampleAgentSt "hi" true).2 "success" = some (.bool false) ∧
      resGet (sendMessage (fun _ _ => .err "network down") "gemini-pro"
        sampleAgentSt "hi" true).2 "error" = some (.str "network down")) ∧
    ∃ u a, (sendMessage (fun _ _ => .ok "hello" "gemini-pro" []) "gemini-pro"
        sampleAgentSt "hi" true).1.db.messages =
        sampleAgentSt.db.messages ++ [u, a] ∧
      u.role = "user" ∧ u.content = "hi" ∧ u.sessionId = sampleSession.id ∧
      a.role = "assistant" ∧ a.content = "hello" ∧
      a.sessionId = sampleSession.id ∧ u.createdAt < a.createdAt ∧
      resGet (sendMessage (fun _ _ => .ok "hello" "gemini-pro" []) "gemini-pro"
        sampleAgentSt "hi" true).2 "success" = some (.bool true) :=
  ⟨(send_message_atomic (fun _ _ => .err "network down") (fun _ _ => .err "e")
      "gemini-pro" sampleAgentSt "hi" "" "" true).1 "network down" rfl,
   (send_message_atomic (fun _ _ => .ok "hello" "gemini-pro" [])
      (fun _ _ => .err "e") "gemini-pro" sampleAgentSt "hi" "" "" true).2.1
      "hello" "gemini-pro" [] sampleSession rfl rfl rfl⟩

/-- C8: reading a session's history returns its messages sorted by creation
timestamp (a permutation of the stored rows), and the history replayed into
a send call is exactly that creation-ordered list of turns; for a log whose
timestamps are already in insertion order the replay is the stored log
itself. -/
theorem history_sorted_replay :
    ∀ (st : AgentSt) (sid : Nat) (s : AgentSessionR),
      (sid ≠ 0 → st.db.sessions.find? (fun x => x.id == sid) = some s →
        getSessionMessages st (some sid) =
          (sortMessages (messagesOf st.db s.id)).map messageToDict) ∧
      List.Sorted msgLE (sortMessages (messagesOf st.db sid)) ∧
      (sortMessages (messagesOf st.db sid)).Perm (messagesOf st.db sid) ∧
      (st.currentSession = some s →
        sendHistory st =
          (sortMessages (messagesOf st.db s.id)).map
            (fun m => ⟨m.role, m.content⟩) ∧
        (sendHistory st).Perm
          ((messagesOf st.db s.id).map (fun m => ⟨m.role, m.content⟩)) ∧
        (List.Sorted msgLE (messagesOf st.db s.id) →
          sendHistory st =
            (messagesOf st.db s.id).map (fun m => ⟨m.role, m.content⟩))) := by
  intro st sid s
  refine ⟨?_, ?_, ?_, ?_⟩
  · intro hsid hfind
    simp [getSessionMessages, hsid, hfind]
  · exact List.sorted_insertionSort msgLE (messagesOf st.db sid)
  · exact List.perm_insertionSort msgLE (messagesOf st.db sid)
  · intro hcur
    refine ⟨?_, ?_, ?_⟩
    · simp [sendHistory, hcur, getConversationHistory, sortMessages]
    · have h1 : sendHistory st =
          (sortMessages (messagesOf st.db s.id)).map
            (fun m => (⟨m.role, m.content⟩ : HistEntry)) := by
        simp [sendHistory, hcur, getConversationHistory, sortMessages]
      rw [h1]
      exact (List.perm_insertionSort msgLE (messagesOf st.db s.id)).map _
    · intro hsorted
      have h1 : sendHistory st =
          (sortMessages (messagesOf st.db s.id)).map
            (fun m => (⟨m.role, m.content⟩ : HistEntry)) := by
        simp [sendHistory, hcur, getConversationHistory, sortMessages]
      rw [h1]
      unfold sortMessages
      rw [List.Sorted.insertionSort_eq hsorted]

/-- Sample out-of-order rows: the later-created message was inserted first. -/
def sampleMsgA : AgentMessageR :=
  { id := 1, sessionId := 1, role := "user", content := "u1",
    metadata := none, createdAt := 5 }

/-- The earlier-created message, inserted second. -/
def sampleMsgB : AgentMessageR :=
  { id := 2, sessionId := 1, role := "assistant", content := "a1",
    metadata := none, createdAt := 3 }

/-- Agent state over the two out-of-order rows of `sampleSession`. -/
def sampleAgentSt2 : AgentSt :=
  { db := { sessions := [sampleSession], messages := [sampleMsgA, sampleMsgB],
            nextSessionId := 2, nextMessageId := 3, now := 6 },
    currentSession := some sampleSession }

/-- Witness for C8: on a log stored out of creation order the read-back and
the replayed history are the creation-ordered permutation. -/
theorem history_sorted_replay_witness :
    getSessionMessages sampleAgentSt2 (some 1) =
      (sortMessages (messagesOf sampleAgentSt2.db sampleSession.id)).map
        messageToDict ∧
    sendHistory sampleAgentSt2 =
      [⟨"assistant", "a1"⟩, ⟨"user", "u1"⟩] ∧
    (sendHistory sampleAgentSt2).Perm
      ((messagesOf sampleAgentSt2.db sampleSession.id).map
        (fun m => ⟨m.role, m.content⟩)) :=
  ⟨(history_sorted_replay sampleAgentSt2 1 sampleSession).1 (by decide) rfl,
   rfl,
   ((history_sorted_replay sampleAgentSt2 1 sampleSession).2.2.2 rfl).2.1⟩

/-- Stripping the empty submission yields the empty string. -/
theorem pyStrip_empty : pyStrip "" = "" := rfl

/-- Normalising the empty reply yields the empty string. -/
theorem pyNorm_empty : pyNorm "" = "" := rfl

/-- The echo line of an empty submission. -/
theorem echo_empty_line :
    "[yellow]> " ++ "" ++ "[/yellow]" = "[yellow]> [/yellow]" := rfl

/-- The pending continuation states of the welcome screen. -/
inductive PendingKind where
  | modelSel
  | initPath
  | cleanAction
  | commitConfirm
  | reviewConfirm
  | explainInput
deriving DecidableEq, Repr

/-- Exactly the given continuation is pending: this continuation's gate is
set and every other dispatcher gate is clear. -/
def onlyPending (st : AppState) : PendingKind → Prop
  | .modelSel =>
    st.setupStep = some "model_selection" ∧ st.initWaitingForPath = false ∧
    st.cleanWaitingForAction = false ∧ st.commitWaitingForConfirmation = false ∧
    st.reviewWaitingForConfirmation = false ∧ st.explainWaitingForInput = false
  | .initPath =>
    st.setupStep = none ∧ st.initWaitingForPath = true ∧
    st.cleanWaitingForAction = false ∧ st.commitWaitingForConfirmation = false ∧
    st.reviewWaitingForConfirmation = false ∧ st.explainWaitingForInput = false
  | .cleanAction =>
    st.setupStep = none ∧ st.initWaitingForPath = false ∧
    st.cleanWaitingForAction = true ∧ st.commitWaitingForConfirmation = false ∧
    st.reviewWaitingForConfirmation = false ∧ st.explainWaitingForInput = false
  | .commitConfirm =>
    st.setupStep = none ∧ st.initWaitingForPath = false ∧
    st.cleanWaitingForAction = false ∧ st.commitWaitingForConfirmation = true ∧
    st.reviewWaitingForConfirmation = false ∧ st.explainWaitingForInput = false
  | .reviewConfirm =>
    st.setupStep = none ∧ st.initWaitingForPath = false ∧
    st.cleanWaitingForAction = false ∧ st.commitWaitingForConfirmation = false ∧
    st.reviewWaitingForConfirmation = true ∧ st.explainWaitingForInput = false
  | .explainInput =>
    st.setupStep = none ∧ st.initWaitingForPath = false ∧
    st.cleanWaitingForAction = false ∧ st.commitWaitingForConfirmation = false ∧
    st.reviewWaitingForConfirmation = false ∧ st.explainWaitingForInput = true

/-- No continuation gate is active: the next input is treated as a fresh
command. -/
def isIdle (st : AppState) : Prop :=
  st.setupStep ≠ some "model_selection" ∧ st.initWaitingForPath = false ∧
  st.cleanWaitingForAction = false ∧ st.commitWaitingForConfirmation = false ∧
  st.reviewWaitingForConfirmation = false ∧ st.explainWaitingForInput = false

/-- The cancellation notice each reply handler writes on empty input (the
init-path handler writes none). -/
def cancelNotice : PendingKind → String
  | .modelSel => "[dim]Model selection cancelled.[/dim]"
  | .initPath => ""
  | .cleanAction => "[dim]Clean operation cancelled.[/dim]"
  | .commitConfirm => "[dim]Commit cancelled.[/dim]"
  | .reviewConfirm => "[dim]Review discarded (not saved to database).[/dim]"
  | .explainInput => "[dim]Explain operation cancelled.[/dim]"

/-- C1 (amended): in every pending-prompt state except the init-path one,
submitting an empty line issues no `execute_command` call, returns the
engine to idle, and writes exactly the echo and that state's cancellation
notice. -/
theorem empty_input_cancels_pending :
    ∀ (exec : Exec) (st : AppState) (k : PendingKind), k ≠ .initPath →
      onlyPending st k →
      (onInputSubmitted exec st "").calls = [] ∧
      isIdle (onInputSubmitted exec st "").state ∧
      (onInputSubmitted exec st "").writes =
        ["[yellow]> [/yellow]", cancelNotice k] := by
  intro exec st k hk hp
  cases k with
  | modelSel =>
    obtain ⟨h1, h2, h3, h4, h5, h6⟩ := hp
    refine ⟨?_, ?_, ?_⟩ <;>
      simp [onInputSubmitted, h1, handleModelChoice, pyStrip_empty,
        echo_empty_line, isIdle, resetState, cancelNotice, h6]
  | initPath => exact absurd rfl hk
  | cleanAction =>
    obtain ⟨h1, h2, h3, h4, h5, h6⟩ := hp
    refine ⟨?_, ?_, ?_⟩ <;>
      simp [onInputSubmitted, h1, h2, h3, handleCleanAction, pyStrip_empty,
        echo_empty_line, isIdle, cancelNotice, h4, h5, h6]
  | commitConfirm =>
    obtain ⟨h1, h2, h3, h4, h5, h6⟩ := hp
    refine ⟨?_, ?_, ?_⟩ <;>
      simp [onInputSubmitted, h1, h2, h3, h4, handleCommitConfirmation,
        pyStrip_empty, pyNorm_empty, echo_empty_line, isIdle, cancelNotice,
        h5, h6]
  | reviewConfirm =>
    obtain ⟨h1, h2, h3, h4, h5, h6⟩ := hp
    refine ⟨?_, ?_, ?_⟩ <;>
      simp [onInputSubmitted, h1, h2, h3, h4, h5, handleReviewConfirmation,
        pyStrip_empty, pyNorm_empty, echo_empty_line, isIdle, cancelNotice, h6]
  | explainInput =>
    obtain ⟨h1, h2, h3, h4, h5, h6⟩ := hp
    refine ⟨?_, ?_, ?_⟩ <;>
      simp [onInputSubmitted, h1, h2, h3, h4, h5, h6, handleExplainInput,
        resetExplain, pyStrip_empty, echo_empty_line, isIdle, cancelNotice]

/-- The continuation dictionary `InitCommand.execute` returns for a falsy
`project_path` (`app/commands/init_command.py`). -/
def initPromptResult : ResultDict :=
  [("prompt", .str "project_path"),
   ("message", .str "Enter the project path to analyze:"),
   ("placeholder", .str "Enter project path (or \x27.\x27 for current directory)")]

/-- The welcome screen awaiting the init project path. -/
def initPathPendingState : AppState :=
  { initialAppState with initWaitingForPath := true }

/-- C1 counterexample: in the awaiting-init-path state an empty submission
is passed straight to the init command (which re-returns its prompt,
rendered as an error) instead of cancelling: the pending handler is
invoked and no cancellation notice appears. -/
theorem empty_input_init_path_counterexample :
    (onInputSubmitted (fun _ => initPromptResult) initPathPendingState
        "").calls =
      [(⟨"init", [("project_path", "")]⟩, initPromptResult)] ∧
    (onInputSubmitted (fun _ => initPromptResult) initPathPendingState
        "").calls ≠ [] ∧
    (onInputSubmitted (fun _ => initPromptResult) initPathPendingState
        "").writes =
      ["[yellow]> [/yellow]",
       "[blue]🚀 Starting AI-powered documentation generation...[/blue]",
       "[yellow]⏳ Don\x27t worry, it\x27s not broken! We\x27re calling the AI - this can take 30-60 seconds...[/yellow]",
       "[dim]🎉 AI processing completed![/dim]",
       "[red]❌ Enter the project path to analyze:[/red]"] := by
  refine ⟨rfl, ?_, rfl⟩
  intro h
  exact List.cons_ne_nil _ _ h

/-- The welcome screen awaiting the commit confirmation with a draft. -/
def commitPendingState : AppState :=
  { initialAppState with
    commitWaitingForConfirmation := true,
    pendingCommitMessage := some "initial draft" }

/-- Witness for the amended C1 in the commit-confirmation state. -/
theorem empty_input_cancels_pending_witness :
    (onInputSubmitted (fun _ => initPromptResult) commitPendingState
      "").calls = [] ∧
    isIdle (onInputSubmitted (fun _ => initPromptResult) commitPendingState
      "").state ∧
    (onInputSubmitted (fun _ => initPromptResult) commitPendingState
      "").writes = ["[yellow]> [/yellow]", cancelNotice .commitConfirm] :=
  empty_input_cancels_pending (fun _ => initPromptResult) commitPendingState
    .commitConfirm (by decide) ⟨rfl, rfl, rfl, rfl, rfl, rfl⟩

/-- A nonempty string is not empty under the character-list test. -/
theorem pyIsEmpty_false {s : String} (h : s ≠ "") : pyIsEmpty s = false := by
  unfold pyIsEmpty
  cases s with
  | mk data =>
    cases data with
    | nil => exact absurd rfl h
    | cons a l => rfl

/-- C5 counterexample: while the commit draft is pending, the reply
`edit Fix` stores the lowercased draft `fix` instead of the supplied text
`Fix` (and issues no command call). -/
theorem commit_edit_lowercases_counterexample :
    (onInputSubmitted (fun _ => initPromptResult) commitPendingState
        "edit Fix").state.pendingCommitMessage = some "fix" ∧
    (some "fix" : Option String) ≠ some "Fix" ∧
    (onInputSubmitted (fun _ => initPromptResult) commitPendingState
        "edit Fix").calls = [] := by
  refine ⟨rfl, by decide, rfl⟩

/-- C5 (amended): while a nonempty commit draft is pending, any reply whose
lowercased, stripped form is neither empty nor `yes`, `no` or `edit` issues
no command call and keeps the confirmation pending; the draft becomes the
lowercased reply text (the stripped remainder after `edit ` when the reply
starts with it — if that remainder is empty the old draft is kept and an
error is shown); when the replacement is nonempty the same confirmation
prompt is re-emitted. -/
theorem commit_confirmation_revised_draft :
    ∀ (exec : Exec) (st : AppState) (reply d : String),
      st.setupStep = none → st.initWaitingForPath = false →
      st.cleanWaitingForAction = false →
      st.commitWaitingForConfirmation = true →
      st.pendingCommitMessage = some d → d ≠ "" →
      pyNorm (pyStrip reply) ≠ "" → pyNorm (pyStrip reply) ≠ "yes" →
      pyNorm (pyStrip reply) ≠ "no" → pyNorm (pyStrip reply) ≠ "edit" →
      (onInputSubmitted exec st reply).calls = [] ∧
      (onInputSubmitted exec st reply).state.commitWaitingForConfirmation =
        true ∧
      (onInputSubmitted exec st reply).state.pendingCommitMessage =
        some (if (if pyStartsWith (pyNorm (pyStrip reply)) "edit " then
                    pyStrip (pyDrop (pyNorm (pyStrip reply)) 5)
                  else pyNorm (pyStrip reply)) = "" then d
              else if pyStartsWith (pyNorm (pyStrip reply)) "edit " then
                pyStrip (pyDrop (pyNorm (pyStrip reply)) 5)
              else pyNorm (pyStrip reply)) ∧
      ((if pyStartsWith (pyNorm (pyStrip reply)) "edit " then
          pyStrip (pyDrop (pyNorm (pyStrip reply)) 5)
        else pyNorm (pyStrip reply)) ≠ "" →
        "[yellow]Execute this commit? (yes/no/edit):[/yellow]" ∈
          (onInputSubmitted exec st reply).writes) := by
  intro exec st reply d h1 h2 h3 h4 h5 hd hne hyes hno hedit
  by_cases ht : (if pyStartsWith (pyNorm (pyStrip reply)) "edit " then
      pyStrip (pyDrop (pyNorm (pyStrip reply)) 5)
    else pyNorm (pyStrip reply)) = ""
  · refine ⟨?_, ?_, ?_, ?_⟩ <;>
      simp [onInputSubmitted, h1, h2, h3, h4, h5, handleCommitConfirmation,
        hne, hyes, hno, hedit, pyTruthyStr, pyIsEmpty_false hd, ht]
  · refine ⟨?_, ?_, ?_, ?_⟩ <;>
      simp [onInputSubmitted, h1, h2, h3, h4, h5, handleCommitConfirmation,
        hne, hyes, hno, hedit, pyTruthyStr, pyIsEmpty_false hd, ht]

/-- Witness for the amended C5: the spec scenario reply
`edit a better message` replaces the draft and re-asks without a call. -/
theorem commit_confirmation_revised_draft_witness :
    (onInputSubmitted (fun _ => initPromptResult) commitPendingState
        "edit a better message").calls = [] ∧
    (onInputSubmitted (fun _ => initPromptResult) commitPendingState
        "edit a better message").state.commitWaitingForConfirmation = true ∧
    (onInputSubmitted (fun _ => initPromptResult) commitPendingState
        "edit a better message").state.pendingCommitMessage =
      some "a better message" ∧
    "[yellow]Execute this commit? (yes/no/edit):[/yellow]" ∈
      (onInputSubmitted (fun _ => initPromptResult) commitPendingState
        "edit a better message").writes := by
  have h := commit_confirmation_revised_draft (fun _ => initPromptResult)
    commitPendingState "edit a better message" "initial draft"
    rfl rfl rfl rfl rfl (by decide) (by decide) (by decide) (by decide)
    (by decide)
  exact ⟨h.1, h.2.1, h.2.2.1.trans (by rfl), h.2.2.2 (by decide)⟩

/-- C4 evidence: the name `models` matches no member of the `AgentCommand`
enum of `command_enum.py`, so for every registry contents and database
outcome `execute_command("models")` takes the unknown-command branch and
returns `Unknown command: models` — the model-choice prompt of the scenario
is never emitted.  (`_register_commands` itself reads the nonexistent
`AgentCommand.MODELS` attribute, so constructing the manager already
raises.) -/
theorem models_dispatch_unknown_command :
    ∀ (commands : Registry) (dbAcquire : Except String Unit),
      resolveCommand "models" = none ∧
      executeCommand commands dbAcquire "models" =
        .ok (unknownCommandResult "models") ∧
      promptIs (unknownCommandResult "models") "model" = false ∧
      resTruthy (unknownCommandResult "models") "success" = false := by
  intro commands dbAcquire
  exact ⟨rfl, rfl, rfl, rfl⟩

end BootHn
